import Mathlib

/-!
Verification of the notebook-dashboard generator (`notebook_dashboard.py`).

The Python program is shallowly embedded here:

* JSON values decoded by `json.load` become the inductive type `JVal`;
  Python runtime failures (`KeyError`, `TypeError`, `AttributeError`, ...)
  become `Except Unit` errors, since the program's `main` treats every
  exception during parsing/rendering uniformly as a parse/render failure.
* `dict.get(k, d)` becomes `jGetD`, `x[k]` becomes `jGetItem`,
  iteration (`for x in v`) becomes `jIter`, the `in` operator becomes
  `jContains`, `str(x)` becomes `pyStr`, `''.join(xs)` becomes
  `joinStrList`, `s.strip()` becomes `pyStrip`.
* The regular-expression rewrites of `_markdown_to_html` and the title
  regex of `_extract_title` are embedded as character-list scanners that
  follow Python `re` semantics (leftmost match, lazy `+?`, greedy `+`,
  backtracking of `\s+`, `re.MULTILINE` anchoring, `re.DOTALL`).
* The `while` loop of `_pair_content` is embedded with explicit fuel
  (`pairContentLoop`); `none` means the loop did not finish within the
  given fuel.  The loop body consumes at least one list element per
  iteration whenever every markdown entry is truthy, so the fuel
  `md.length + plots.length` used by `pair_content` is then sufficient.
* The wall-clock timestamp of the default template is passed in as the
  explicit argument `now`.
* File reading (`open` + `json.load`, lines 22-23 of the source) is
  embedded as `ReadResult`: the file may be missing, unreadable, invalid
  JSON, or successfully decoded to a `JVal`.
-/

/-! ## Character and string utilities -/

/-- Python `\s` (ASCII whitespace; the claims only exercise ASCII input). -/
def sCharB (c : Char) : Bool :=
  c == ' ' || c == '\t' || c == '\n' || c == '\r' || c == '\x0B' || c == '\x0C'

/-- `charsHasPref pat s` is true when `pat` is an initial segment of `s`. -/
def charsHasPref : List Char → List Char → Bool
  | [], _ => true
  | _ :: _, [] => false
  | a :: as, b :: bs => a == b && charsHasPref as bs

/-- Scan every position of the haystack for the needle. -/
def strContainsAux (needle : List Char) : List Char → Bool
  | [] => charsHasPref needle []
  | c :: cs => charsHasPref needle (c :: cs) || strContainsAux needle cs

/-- Substring test, used to state the "output contains ..." properties. -/
def strContainsSub (hay needle : String) : Bool :=
  strContainsAux needle.data hay.data

/-- Python `str.strip()`: drop whitespace from both ends. -/
def pyStrip (s : String) : String :=
  String.mk (((s.data.dropWhile sCharB).reverse.dropWhile sCharB).reverse)

/-- Split a character list at every newline (like Python line structure
under `re.MULTILINE`: `^` matches at the start and after each newline,
`$` before each newline and at the end). -/
def splitNl : List Char → List (List Char)
  | [] => [[]]
  | c :: cs =>
    if c = '\n' then [] :: splitNl cs
    else
      match splitNl cs with
      | l :: ls => (c :: l) :: ls
      | [] => [[c]]

/-- Rejoin lines with newlines (inverse of `splitNl`). -/
def joinNlChars : List (List Char) → List Char
  | [] => []
  | [l] => l
  | l :: ls => l ++ '\n' :: joinNlChars ls

/-- Python `'\n'.join(parts)`, used by every template. -/
def joinLines : List String → String
  | [] => ""
  | [s] => s
  | s :: rest => s ++ "\n" ++ joinLines rest

/-- Characters of the current line: everything up to the next newline. -/
def takeToEol : List Char → List Char
  | [] => []
  | c :: cs => if c = '\n' then [] else c :: takeToEol cs

/-- Length of the maximal run of `\s` characters at the front. -/
def countLeadingS : List Char → Nat
  | [] => 0
  | c :: cs => if sCharB c then countLeadingS cs + 1 else 0

theorem strAppendEmpty : ∀ s : String, s ++ "" = s
  | ⟨l⟩ => congrArg String.mk (List.append_nil l)

theorem strAppendAssoc : ∀ a b c : String, a ++ b ++ c = a ++ (b ++ c)
  | ⟨x⟩, ⟨y⟩, ⟨z⟩ => congrArg String.mk (List.append_assoc x y z)

/-! ## JSON values and the Python operations the source applies to them -/

/-- A decoded JSON value as produced by `json.load` (floats are not
modeled; the program never computes with numbers). -/
inductive JVal where
  | jnull
  | jbool (b : Bool)
  | jnum (n : Int)
  | jstr (s : String)
  | jarr (items : List JVal)
  | jobj (fields : List (String × JVal))

/-- First-occurrence lookup in a JSON object (objects are modeled as
association lists with distinct keys, as `json.load` produces). -/
def lookupField : List (String × JVal) → String → Option JVal
  | [], _ => none
  | (k, v) :: rest, key => if k = key then some v else lookupField rest key

/-- Python `v.get(key, dflt)`: only dicts have `.get` (otherwise
`AttributeError`). -/
def jGetD (v : JVal) (key : String) (dflt : JVal) : Except Unit JVal :=
  match v with
  | .jobj fs => .ok ((lookupField fs key).getD dflt)
  | _ => .error ()

/-- Python `v[key]` with a string key: `KeyError` when absent,
`TypeError` on non-dicts. -/
def jGetItem (v : JVal) (key : String) : Except Unit JVal :=
  match v with
  | .jobj fs =>
    match lookupField fs key with
    | some x => .ok x
    | none => .error ()
  | _ => .error ()

/-- Python iteration `for x in v`: lists yield elements, strings yield
one-character strings, dicts yield their keys; other values raise
`TypeError`. -/
def jIter : JVal → Except Unit (List JVal)
  | .jarr items => .ok items
  | .jstr s => .ok (s.data.map (fun c => JVal.jstr (String.mk [c])))
  | .jobj fs => .ok (fs.map (fun kv => JVal.jstr kv.1))
  | _ => .error ()

/-- Is `v` exactly the string `s`?  Python `==` between a decoded JSON
value and a string constant: only equal strings compare equal. -/
def jIsStr (v : JVal) (s : String) : Bool :=
  match v with
  | .jstr t => t == s
  | _ => false

/-- Key membership in an object field list. -/
def containsKey : List (String × JVal) → String → Bool
  | [], _ => false
  | (k, _) :: rest, key => if k = key then true else containsKey rest key

/-- String membership in a list of JSON values (Python `in` on a list). -/
def containsStrVal : List JVal → String → Bool
  | [], _ => false
  | v :: rest, key => if jIsStr v key then true else containsStrVal rest key

/-- Python `key in v`: key test on dicts, membership on lists, substring
test on strings, `TypeError` otherwise. -/
def jContains (v : JVal) (key : String) : Except Unit Bool :=
  match v with
  | .jobj fs => .ok (containsKey fs key)
  | .jarr items => .ok (containsStrVal items key)
  | .jstr s => .ok (strContainsSub s key)
  | _ => .error ()

/-- Escape for Python `repr` of a string with quote character `q`. -/
def pyEscape (q : Char) : List Char → List Char
  | [] => []
  | c :: cs =>
    if c = '\\' then '\\' :: '\\' :: pyEscape q cs
    else if c = q then '\\' :: q :: pyEscape q cs
    else if c = '\n' then '\\' :: 'n' :: pyEscape q cs
    else if c = '\r' then '\\' :: 'r' :: pyEscape q cs
    else if c = '\t' then '\\' :: 't' :: pyEscape q cs
    else c :: pyEscape q cs

/-- Python `repr` of a string: single quotes unless the string contains a
single quote and no double quote. -/
def pyStrRepr (s : String) : String :=
  let hasSingle := s.data.contains '\''
  let hasDouble := s.data.contains '"'
  let q : Char := if hasSingle && !hasDouble then '"' else '\''
  String.mk (q :: pyEscape q s.data ++ [q])

/-- Join string parts with `", "`. -/
def joinCommaSep : List String → String
  | [] => ""
  | [s] => s
  | s :: rest => s ++ ", " ++ joinCommaSep rest

mutual

/-- Python `repr` of a decoded JSON value. -/
def pyRepr : JVal → String
  | .jnull => "None"
  | .jbool true => "True"
  | .jbool false => "False"
  | .jnum n => toString n
  | .jstr s => pyStrRepr s
  | .jarr items => "[" ++ joinCommaSep (pyReprList items) ++ "]"
  | .jobj fs => "\x7b" ++ joinCommaSep (pyReprFields fs) ++ "\x7d"

def pyReprList : List JVal → List String
  | [] => []
  | v :: rest => pyRepr v :: pyReprList rest

def pyReprFields : List (String × JVal) → List String
  | [] => []
  | (k, v) :: rest => (pyStrRepr k ++ ": " ++ pyRepr v) :: pyReprFields rest

end

/-- Python `str(v)`: strings unchanged, everything else via `repr`. -/
def pyStr : JVal → String
  | .jstr s => s
  | v => pyRepr v

/-- Python `''.join(items)` over already-iterated values: every element
must be a string (`TypeError` otherwise). -/
def joinStrList : List JVal → Except Unit String
  | [] => .ok ""
  | .jstr s :: rest =>
    match joinStrList rest with
    | .error e => .error e
    | .ok r => .ok (s ++ r)
  | _ :: _ => .error ()

/-! ## The title regex `^#\s+(.+)$` (re.MULTILINE), from `_extract_title`

`re.search` takes the leftmost position at which the pattern matches.
At a match position `^` requires a line start and the next character is
`#`; then `\s+` is greedy with backtracking and `(.+)` is greedy up to
the end of the line (where `$` matches).  So with `rest` the characters
after `#` and `k` the maximal leading `\s` run of `rest`, the engine
uses the largest `j ≤ k`, `j ≥ 1` such that the character at index `j`
exists and is not a newline, and group 1 is the rest of that line.
Note `\s` includes newlines, so the whitespace may cross line ends. -/

/-- Try `\s+` lengths `j, j-1, ..., 1`; return group 1 of the first
successful split. -/
def h1Back (rest : List Char) : Nat → Option (List Char)
  | 0 => none
  | Nat.succ jm =>
    match rest.drop (jm + 1) with
    | [] => h1Back rest jm
    | c :: cs => if c = '\n' then h1Back rest jm else some (takeToEol (c :: cs))

/-- Match `\s+(.+)$` against the characters following a line-start `#`. -/
def h1TryMatch (rest : List Char) : Option (List Char) :=
  h1Back rest (countLeadingS rest)

/-- Scan for the leftmost match of `^#\s+(.+)$`; the flag records
whether the current position is a line start. -/
def h1SearchFrom : Bool → List Char → Option (List Char)
  | _, [] => none
  | atStart, c :: cs =>
    if atStart && c == '#' then
      match h1TryMatch cs with
      | some g => some g
      | none => h1SearchFrom (c == '\n') cs
    else h1SearchFrom (c == '\n') cs

/-- `re.search(r'^#\s+(.+)$', source, re.MULTILINE)`, returning group 1. -/
def h1Search (s : List Char) : Option (List Char) :=
  h1SearchFrom true s

/-! ## Data model of the extraction result -/

/-- One extracted plot: MIME type, raw payload, and the owning Output's
metadata (`_extract_plots_from_cell`). -/
structure Plot where
  mime_type : String
  data : JVal
  metadata : JVal

/-- The content record built by `parse_notebook`: title, plots and
markdown in cell order, passthrough notebook metadata. -/
structure Content where
  title : String
  plots : List Plot
  markdown : List String
  metadata : JVal

/-! ## Extractor (`parse_notebook`, `_extract_title`,
`_process_markdown_cell`, `_extract_plots_from_cell`) -/

/-- The cell scan inside `_extract_title`: first markdown cell whose
joined source matches the H1 regex wins (the Python `return` exits the
loop early, so later cells are not inspected). -/
def titleScan : List JVal → Except Unit (Option String)
  | [] => .ok none
  | cell :: rest =>
    match jGetItem cell "cell_type" with
    | .error e => .error e
    | .ok ct =>
      if jIsStr ct "markdown" then
        match jGetD cell "source" (JVal.jarr []) with
        | .error e => .error e
        | .ok srcV =>
          match jIter srcV with
          | .error e => .error e
          | .ok items =>
            match joinStrList items with
            | .error e => .error e
            | .ok s =>
              match h1Search s.data with
              | some g => .ok (some (pyStrip (String.mk g)))
              | none => titleScan rest
      else titleScan rest

/-- `_extract_title`: first H1 in a markdown cell, else `"Dashboard"`. -/
def extract_title (v : JVal) : Except Unit String :=
  match jGetD v "cells" (JVal.jarr []) with
  | .error e => .error e
  | .ok cellsV =>
    match jIter cellsV with
    | .error e => .error e
    | .ok cells =>
      match titleScan cells with
      | .error e => .error e
      | .ok (some t) => .ok t
      | .ok none => .ok "Dashboard"

/-- `_process_markdown_cell`: join a list source, `str()` anything else. -/
def process_markdown_cell (cell : JVal) : Except Unit String :=
  match jGetD cell "source" (JVal.jarr []) with
  | .error e => .error e
  | .ok (JVal.jarr items) => joinStrList items
  | .ok v => .ok (pyStr v)

/-- The fixed MIME scan of `_extract_plots_from_cell`: one plot per
supported MIME type present in the output's data mapping, in list
order. -/
def scanMimes (dataV metaV : JVal) : List String → Except Unit (List Plot)
  | [] => .ok []
  | mime :: rest =>
    match jContains dataV mime with
    | .error e => .error e
    | .ok b =>
      match
        (if b then
          match jGetItem dataV mime with
          | .error e => .error e
          | .ok payload => .ok [(⟨mime, payload, metaV⟩ : Plot)]
        else .ok [] : Except Unit (List Plot)) with
      | .error e => .error e
      | .ok here =>
        match scanMimes dataV metaV rest with
        | .error e => .error e
        | .ok more => .ok (here ++ more)

/-- The output loop of `_extract_plots_from_cell`: only `display_data`
and `execute_result` outputs are scanned for image data. -/
def processOutputs : List JVal → Except Unit (List Plot)
  | [] => .ok []
  | o :: rest =>
    match jGetD o "output_type" JVal.jnull with
    | .error e => .error e
    | .ok ot =>
      match
        (if jIsStr ot "display_data" || jIsStr ot "execute_result" then
          match jGetD o "data" (JVal.jobj []) with
          | .error e => .error e
          | .ok dataV =>
            match jGetD o "metadata" (JVal.jobj []) with
            | .error e => .error e
            | .ok metaV =>
              scanMimes dataV metaV ["image/png", "image/jpeg", "image/svg+xml"]
        else .ok [] : Except Unit (List Plot)) with
      | .error e => .error e
      | .ok here =>
        match processOutputs rest with
        | .error e => .error e
        | .ok more => .ok (here ++ more)

/-- `_extract_plots_from_cell`. -/
def extract_plots_from_cell (cell : JVal) : Except Unit (List Plot) :=
  match jGetD cell "outputs" (JVal.jarr []) with
  | .error e => .error e
  | .ok outputsV =>
    match jIter outputsV with
    | .error e => .error e
    | .ok outs => processOutputs outs

/-- One cell's contribution to the markdown/plot lists in the main loop
of `parse_notebook`; a markdown cell is kept only when its stripped text
is non-empty (Python truthiness of `markdown_text.strip()`). -/
def processCellContrib (ct : JVal) (cell : JVal) :
    Except Unit (List String × List Plot) :=
  if jIsStr ct "markdown" then
    match process_markdown_cell cell with
    | .error e => .error e
    | .ok t => if pyStrip t = "" then .ok ([], []) else .ok ([t], [])
  else if jIsStr ct "code" then
    match extract_plots_from_cell cell with
    | .error e => .error e
    | .ok ps => .ok ([], ps)
  else .ok ([], [])

/-- The cell loop of `parse_notebook`. -/
def processCells : List JVal → Except Unit (List String × List Plot)
  | [] => .ok ([], [])
  | cell :: rest =>
    match jGetItem cell "cell_type" with
    | .error e => .error e
    | .ok ct =>
      match processCellContrib ct cell with
      | .error e => .error e
      | .ok (mds1, pls1) =>
        match processCells rest with
        | .error e => .error e
        | .ok (mds2, pls2) => .ok (mds1 ++ mds2, pls1 ++ pls2)

/-- `parse_notebook` on a decoded JSON document. -/
def parse_notebook (v : JVal) : Except Unit Content :=
  match extract_title v with
  | .error e => .error e
  | .ok title =>
    match jGetD v "metadata" (JVal.jobj []) with
    | .error e => .error e
    | .ok metaV =>
      match jGetD v "cells" (JVal.jarr []) with
      | .error e => .error e
      | .ok cellsV =>
        match jIter cellsV with
        | .error e => .error e
        | .ok cells =>
          match processCells cells with
          | .error e => .error e
          | .ok (mds, pls) => .ok ⟨title, pls, mds, metaV⟩

/-- Outcome of `open(notebook_path)` + `json.load` (source lines 22-23):
the file may be missing, unreadable, or not valid JSON. -/
inductive ReadResult where
  | missingFile
  | unreadable
  | badJson
  | success (v : JVal)

/-- `parse_notebook` from the file system: any read/decode failure is a
parse error. -/
def parse_notebook_file : ReadResult → Except Unit Content
  | .success v => parse_notebook v
  | _ => .error ()

/-! ## `_markdown_to_html`: the regex rewrites as character scanners -/

/-- One line under `re.sub(r'^M(.+)$', r'L\1R', _, flags=re.MULTILINE)`
with a literal marker `M`: a line that starts with the marker and has at
least one further character is wrapped; `(.+)` is greedy up to the line
end, and line content never contains a newline, so the substitution is
line-by-line. -/
def headerLine (marker ltag rtag : List Char) (line : List Char) : List Char :=
  if charsHasPref marker line then
    let rest := line.drop marker.length
    if rest.isEmpty then line else ltag ++ rest ++ rtag
  else line

/-- A whole-text header substitution (`### `, `## ` or `# `). -/
def subHeader (marker ltag rtag : String) (s : String) : String :=
  String.mk (joinNlChars ((splitNl s.data).map (headerLine marker.data ltag.data rtag.data)))

/-- Lazy search for `(.+?)close`: at least one content character (no
newline unless `allowNl`, i.e. `re.DOTALL`), stopping at the earliest
position where the closing delimiter follows.  Returns the captured
content and the characters after the closing delimiter. -/
def findClose (close : List Char) (allowNl : Bool) : List Char → Option (List Char × List Char)
  | [] => none
  | c :: cs =>
    if !allowNl && c == '\n' then none
    else if charsHasPref close cs then some ([c], cs.drop close.length)
    else
      match findClose close allowNl cs with
      | some (content, rest) => some (c :: content, rest)
      | none => none

/-- `re.sub(open(.+?)close, ltag\1rtag, s)`: leftmost matches, scanning
resumes after each replaced match.  The fuel is the remaining input
length; every step consumes at least one input character. -/
def subDelimAux (dopen close ltag rtag : List Char) (allowNl : Bool) :
    Nat → List Char → List Char
  | _, [] => []
  | 0, s => s
  | Nat.succ fuel, c :: cs =>
    if charsHasPref dopen (c :: cs) then
      match findClose close allowNl ((c :: cs).drop dopen.length) with
      | some (content, rest) =>
        ltag ++ content ++ rtag ++ subDelimAux dopen close ltag rtag allowNl fuel rest
      | none => c :: subDelimAux dopen close ltag rtag allowNl fuel cs
    else c :: subDelimAux dopen close ltag rtag allowNl fuel cs

/-- String-level wrapper for one delimiter rewrite. -/
def subDelim (dopen close ltag rtag : String) (allowNl : Bool) (s : String) : String :=
  String.mk (subDelimAux dopen.data close.data ltag.data rtag.data allowNl s.data.length s.data)

/-- Python `str.replace(pat, rep)`: non-overlapping, left to right. -/
def pyReplaceAux (pat rep : List Char) : Nat → List Char → List Char
  | _, [] => []
  | 0, s => s
  | Nat.succ fuel, c :: cs =>
    if charsHasPref pat (c :: cs) then rep ++ pyReplaceAux pat rep fuel ((c :: cs).drop pat.length)
    else c :: pyReplaceAux pat rep fuel cs

/-- String-level wrapper for `str.replace`. -/
def pyReplace (pat rep : String) (s : String) : String :=
  String.mk (pyReplaceAux pat.data rep.data s.data.length s.data)

/-- `_markdown_to_html`: the fixed rewrite pipeline, in source order. -/
def markdown_to_html (s : String) : String :=
  let h := subHeader "### " "<h3>" "</h3>" s
  let h := subHeader "## " "<h2>" "</h2>" h
  let h := subHeader "# " "<h1>" "</h1>" h
  let h := subDelim "**" "**" "<strong>" "</strong>" false h
  let h := subDelim "*" "*" "<em>" "</em>" false h
  let h := subDelim "```" "```" "<pre><code>" "</code></pre>" true h
  let h := subDelim "`" "`" "<code>" "</code>" false h
  let h := pyReplace "\n\n" "</p><p>" h
  "<p>" ++ h ++ "</p>"

/-! ## `_plot_to_html` -/

/-- The payload as a string for interpolation: a list is joined with no
separator (all fragments must be strings), anything else is `str()`-ed
by the f-string. -/
def pyStrOfData : JVal → Except Unit String
  | .jarr l => joinStrList l
  | v => .ok (pyStr v)

/-- `_plot_to_html`: SVG markup is embedded verbatim in a wrapper div,
raster payloads become a base64 data URI in an `img` tag. -/
def plot_to_html (p : Plot) : Except Unit String :=
  if p.mime_type = "image/svg+xml" then
    match pyStrOfData p.data with
    | .error e => .error e
    | .ok s => .ok ("<div class=\"plot-svg\">" ++ s ++ "</div>")
  else
    match pyStrOfData p.data with
    | .error e => .error e
    | .ok s =>
      .ok ("<img src=\"data:" ++ p.mime_type ++ ";base64," ++ s ++ "\" alt=\"Plot\" class=\"plot-image\">")

/-! ## `_pair_content` -/

/-- Python truthiness of `current_md` (None or a string). -/
def mdTruthy : Option String → Bool
  | none => false
  | some s => s != ""

/-- The `while` loop of `_pair_content`, with explicit fuel.  Each
iteration pairs the current markdown entry (if any) with at most one
plot; the plot index always advances while plots remain, the markdown
index advances only when the current entry is truthy.  `none` means the
loop did not finish within the fuel. -/
def pairContentLoop : Nat → List String → List Plot → Option (List (Option String × List Plot))
  | _, [], [] => some []
  | 0, _, _ => none
  | Nat.succ fuel, md, plots =>
    let currentMd := md.head?
    let currentPlots := plots.take 1
    let nextPlots := plots.drop 1
    let nextMd := if mdTruthy currentMd then md.tail else md
    match pairContentLoop fuel nextMd nextPlots with
    | none => none
    | some rest => some ((currentMd, currentPlots) :: rest)

/-- `_pair_content` with fuel `md.length + plots.length`, which is
sufficient whenever every markdown entry is non-empty (each iteration
then shrinks the combined remaining length). -/
def pair_content (md : List String) (plots : List Plot) :
    Option (List (Option String × List Plot)) :=
  pairContentLoop (md.length + plots.length) md plots

/-- The pairing walk as the specification describes it: step in
parallel, one plot per step while plots remain, `none` markdown once the
markdown list is exhausted, until both lists are exhausted. -/
def pairSpec : List String → List Plot → List (Option String × List Plot)
  | [], ps => ps.map (fun p => (none, [p]))
  | m :: ms, [] => (some m, []) :: pairSpec ms []
  | m :: ms, p :: ps => (some m, [p]) :: pairSpec ms ps

/-! ## Templates -/

/-- `_get_default_css`, verbatim. -/
def get_default_css : String := "
        body \x7b
            font-family: 'Segoe UI', Tahoma, Geneva, Verdana, sans-serif;
            line-height: 1.6;
            margin: 0;
            padding: 0;
            background-color: #f5f5f5;
        \x7d
        .container \x7b
            max-width: 1200px;
            margin: 0 auto;
            padding: 20px;
            background-color: white;
            box-shadow: 0 0 10px rgba(0,0,0,0.1);
        \x7d
        .main-title \x7b
            color: #333;
            border-bottom: 3px solid #007acc;
            padding-bottom: 10px;
            margin-bottom: 30px;
        \x7d
        .generated-info \x7b
            color: #666;
            font-style: italic;
            margin-bottom: 30px;
        \x7d
        .section \x7b
            margin-bottom: 40px;
            padding: 20px;
            border-left: 4px solid #007acc;
            background-color: #fafafa;
        \x7d
        .markdown-content \x7b
            margin-bottom: 20px;
        \x7d
        .plots-container \x7b
            display: flex;
            flex-wrap: wrap;
            gap: 20px;
            justify-content: center;
        \x7d
        .plot-image, .plot-svg \x7b
            max-width: 100%;
            height: auto;
            border: 1px solid #ddd;
            border-radius: 5px;
            box-shadow: 0 2px 5px rgba(0,0,0,0.1);
        \x7d
        h1, h2, h3 \x7b color: #333; \x7d
        code \x7b
            background-color: #f0f0f0;
            padding: 2px 4px;
            border-radius: 3px;
            font-family: 'Courier New', monospace;
        \x7d
        pre \x7b
            background-color: #f0f0f0;
            padding: 10px;
            border-radius: 5px;
            overflow-x: auto;
        \x7d
        "

/-- `_get_minimal_css`, verbatim. -/
def get_minimal_css : String := "
        body \x7b
            font-family: Arial, sans-serif;
            margin: 20px;
            line-height: 1.5;
        \x7d
        .content, .plot \x7b
            margin-bottom: 20px;
        \x7d
        .plot-image, .plot-svg \x7b
            max-width: 100%;
            height: auto;
        \x7d
        "

/-- `_get_grid_css`, verbatim. -/
def get_grid_css : String := "
        body \x7b
            font-family: 'Segoe UI', Tahoma, Geneva, Verdana, sans-serif;
            margin: 0;
            padding: 20px;
            background: linear-gradient(135deg, #667eea 0%, #764ba2 100%);
            min-height: 100vh;
        \x7d
        .grid-container \x7b
            display: grid;
            grid-template-columns: repeat(auto-fit, minmax(300px, 1fr));
            gap: 20px;
            max-width: 1400px;
            margin: 0 auto;
        \x7d
        .header \x7b
            grid-column: 1 / -1;
            text-align: center;
            color: white;
            margin-bottom: 20px;
            font-size: 2.5em;
            text-shadow: 2px 2px 4px rgba(0,0,0,0.3);
        \x7d
        .grid-item \x7b
            background: white;
            padding: 20px;
            border-radius: 10px;
            box-shadow: 0 4px 15px rgba(0,0,0,0.1);
            transition: transform 0.3s ease;
        \x7d
        .grid-item:hover \x7b
            transform: translateY(-5px);
        \x7d
        .plot-item \x7b
            display: flex;
            justify-content: center;
            align-items: center;
        \x7d
        .plot-image, .plot-svg \x7b
            max-width: 100%;
            height: auto;
            border-radius: 5px;
        \x7d
        "

/-- Render one list of plots to HTML fragments. -/
def renderPlots : List Plot → Except Unit (List String)
  | [] => .ok []
  | p :: rest =>
    match plot_to_html p with
    | .error e => .error e
    | .ok h =>
      match renderPlots rest with
      | .error e => .error e
      | .ok hs => .ok (h :: hs)

/-- The section loop of `_default_template` (`enumerate` index `i`). -/
def sectionParts : Nat → List (Option String × List Plot) → Except Unit (List String)
  | _, [] => .ok []
  | i, (mdOpt, plts) :: rest =>
    let mdParts : List String :=
      match mdOpt with
      | some md =>
        if md = "" then []
        else ["            <div class='markdown-content'>",
              "                " ++ markdown_to_html md,
              "            </div>"]
      | none => []
    match
      (if plts.isEmpty then .ok []
       else
         match renderPlots plts with
         | .error e => .error e
         | .ok inner =>
           .ok (["            <div class='plots-container'>"] ++ inner ++ ["            </div>"])
        : Except Unit (List String)) with
    | .error e => .error e
    | .ok plotParts =>
      match sectionParts (i + 1) rest with
      | .error e => .error e
      | .ok more =>
        .ok (["        <div class='section' id='section-" ++ toString i ++ "'>"]
          ++ mdParts ++ plotParts ++ ["        </div>"] ++ more)

/-- Fixed head of the default template (`now` is the rendered wall-clock
timestamp). -/
def defaultHead (title now : String) : List String :=
  ["<!DOCTYPE html>",
   "<html lang='en'>",
   "<head>",
   "    <meta charset='UTF-8'>",
   "    <meta name='viewport' content='width=device-width, initial-scale=1.0'>",
   "    <title>" ++ title ++ "</title>",
   "    <style>",
   get_default_css,
   "    </style>",
   "</head>",
   "<body>",
   "    <div class='container'>",
   "        <h1 class='main-title'>" ++ title ++ "</h1>",
   "        <p class='generated-info'>Generated on " ++ now ++ "</p>"]

/-- `_default_template`.  An `.error` arises when a plot payload cannot
be rendered or when the pairing loop runs out of fuel (i.e. the Python
loop would not terminate). -/
def default_template (c : Content) (now : String) : Except Unit String :=
  match pair_content c.markdown c.plots with
  | none => .error ()
  | some pairs =>
    match sectionParts 0 pairs with
    | .error e => .error e
    | .ok secs =>
      .ok (joinLines (defaultHead c.title now ++ secs ++ ["    </div>", "</body>", "</html>"]))

/-- Fixed head of the minimal template. -/
def minimalHead (title : String) : List String :=
  ["<!DOCTYPE html>",
   "<html lang='en'>",
   "<head>",
   "    <meta charset='UTF-8'>",
   "    <meta name='viewport' content='width=device-width, initial-scale=1.0'>",
   "    <title>" ++ title ++ "</title>",
   "    <style>",
   get_minimal_css,
   "    </style>",
   "</head>",
   "<body>",
   "    <h1>" ++ title ++ "</h1>"]

/-- The markdown loop of `_minimal_template`. -/
def mdDivsMinimal : List String → List String
  | [] => []
  | m :: rest => ("    <div class='content'>" ++ markdown_to_html m ++ "</div>") :: mdDivsMinimal rest

/-- The plot loop of `_minimal_template`. -/
def plotDivsMinimal : List Plot → Except Unit (List String)
  | [] => .ok []
  | p :: rest =>
    match plot_to_html p with
    | .error e => .error e
    | .ok h =>
      match plotDivsMinimal rest with
      | .error e => .error e
      | .ok hs => .ok (("    <div class='plot'>" ++ h ++ "</div>") :: hs)

/-- `_minimal_template`: all markdown in order, then all plots in order. -/
def minimal_template (c : Content) : Except Unit String :=
  match plotDivsMinimal c.plots with
  | .error e => .error e
  | .ok pds =>
    .ok (joinLines (minimalHead c.title ++ mdDivsMinimal c.markdown ++ pds ++ ["</body>", "</html>"]))

/-- Fixed head of the grid template. -/
def gridHead (title : String) : List String :=
  ["<!DOCTYPE html>",
   "<html lang='en'>",
   "<head>",
   "    <meta charset='UTF-8'>",
   "    <meta name='viewport' content='width=device-width, initial-scale=1.0'>",
   "    <title>" ++ title ++ "</title>",
   "    <style>",
   get_grid_css,
   "    </style>",
   "</head>",
   "<body>",
   "    <div class='grid-container'>",
   "        <h1 class='header'>" ++ title ++ "</h1>"]

/-- The markdown tile loop of `_grid_template` (re-filters blank
markdown; the `item_count` counter of the source is never read and is
omitted). -/
def gridTextItems : List String → List String
  | [] => []
  | m :: rest =>
    if pyStrip m = "" then gridTextItems rest
    else ("        <div class='grid-item text-item'>" ++ markdown_to_html m ++ "</div>") :: gridTextItems rest

/-- The plot tile loop of `_grid_template`. -/
def gridPlotItems : List Plot → Except Unit (List String)
  | [] => .ok []
  | p :: rest =>
    match plot_to_html p with
    | .error e => .error e
    | .ok h =>
      match gridPlotItems rest with
      | .error e => .error e
      | .ok hs => .ok (("        <div class='grid-item plot-item'>" ++ h ++ "</div>") :: hs)

/-- `_grid_template`. -/
def grid_template (c : Content) : Except Unit String :=
  match gridPlotItems c.plots with
  | .error e => .error e
  | .ok pits =>
    .ok (joinLines (gridHead c.title ++ gridTextItems c.markdown ++ pits
      ++ ["    </div>", "</body>", "</html>"]))

/-- `_create_html_template`: dispatch on the template name; anything
other than `"minimal"` and `"grid"` takes the default branch. -/
def create_html_template (c : Content) (template : String) (now : String) : Except Unit String :=
  if template = "minimal" then minimal_template c
  else if template = "grid" then grid_template c
  else default_template c now

/-! ## Helper lemmas -/

theorem charsHasPref_append (n : List Char) :
    ∀ l t : List Char, charsHasPref n l = true → charsHasPref n (l ++ t) = true := by
  induction n with
  | nil => intro l t _; rfl
  | cons a as ih =>
    intro l t h
    cases l with
    | nil => simp [charsHasPref] at h
    | cons b bs =>
      simp only [charsHasPref, List.cons_append, Bool.and_eq_true] at h ⊢
      exact ⟨h.1, ih bs t h.2⟩

theorem strContainsAux_nil_needle : ∀ t : List Char, strContainsAux [] t = true := by
  intro t
  induction t with
  | nil => rfl
  | cons c cs ih => simp [strContainsAux, charsHasPref]

theorem strContainsAux_append_left (n : List Char) :
    ∀ h t : List Char, strContainsAux n h = true → strContainsAux n (h ++ t) = true := by
  intro h
  induction h with
  | nil =>
    intro t hc
    cases n with
    | nil => exact strContainsAux_nil_needle t
    | cons a as => simp [strContainsAux, charsHasPref] at hc
  | cons c cs ih =>
    intro t hc
    simp only [strContainsAux, List.cons_append, Bool.or_eq_true] at hc ⊢
    rcases hc with h1 | h2
    · exact Or.inl (charsHasPref_append n (c :: cs) t h1)
    · exact Or.inr (ih t h2)

theorem strContainsAux_append_right (n : List Char) :
    ∀ h t : List Char, strContainsAux n t = true → strContainsAux n (h ++ t) = true := by
  intro h t hc
  induction h with
  | nil => exact hc
  | cons c cs ih =>
    simp only [strContainsAux, List.cons_append, Bool.or_eq_true]
    exact Or.inr ih

theorem strContainsSub_append_left (a b n : String) :
    strContainsSub a n = true → strContainsSub (a ++ b) n = true := by
  intro h
  unfold strContainsSub at h ⊢
  rw [String.data_append]
  exact strContainsAux_append_left _ _ _ h

theorem strContainsSub_append_right (a b n : String) :
    strContainsSub b n = true → strContainsSub (a ++ b) n = true := by
  intro h
  unfold strContainsSub at h ⊢
  rw [String.data_append]
  exact strContainsAux_append_right _ _ _ h

theorem strContainsSub_joinLines :
    ∀ (L : List String) (p n : String), p ∈ L → strContainsSub p n = true →
      strContainsSub (joinLines L) n = true := by
  intro L
  induction L with
  | nil => intro p n hm; cases hm
  | cons s rest ih =>
    intro p n hm hc
    cases rest with
    | nil =>
      have hp : p = s := by simpa using hm
      subst hp
      exact hc
    | cons r rs =>
      have hj : joinLines (s :: r :: rs) = (s ++ "\n") ++ joinLines (r :: rs) := rfl
      rw [hj]
      rcases List.mem_cons.mp hm with h1 | h2
      · subst h1
        exact strContainsSub_append_left _ _ _ (strContainsSub_append_left _ _ _ hc)
      · exact strContainsSub_append_right _ _ _ (ih p n h2 hc)

theorem pairSpec_length : ∀ (md : List String) (plots : List Plot),
    (pairSpec md plots).length = max md.length plots.length := by
  intro md
  induction md with
  | nil => intro plots; simp [pairSpec]
  | cons m ms ih =>
    intro plots
    cases plots with
    | nil => simp [pairSpec, ih]
    | cons p ps => simp [pairSpec, ih]; omega

theorem pairLoop_spec : ∀ (fuel : Nat) (md : List String) (plots : List Plot),
    (∀ s ∈ md, s ≠ "") → md.length + plots.length ≤ fuel →
    pairContentLoop fuel md plots = some (pairSpec md plots) := by
  intro fuel
  induction fuel with
  | zero =>
    intro md plots hmd hlen
    cases md with
    | nil =>
      cases plots with
      | nil => rfl
      | cons p ps => simp at hlen
    | cons m ms => simp at hlen
  | succ f ih =>
    intro md plots hmd hlen
    cases md with
    | nil =>
      cases plots with
      | nil => rfl
      | cons p ps =>
        have hr := ih [] ps (by intro s hs; cases hs) (by simp at hlen ⊢; omega)
        simp [pairContentLoop, mdTruthy, hr, pairSpec]
    | cons m ms =>
      have hm : m ≠ "" := hmd m (List.mem_cons_self m ms)
      have htruthy : mdTruthy (some m) = true := by
        simp only [mdTruthy, bne_iff_ne, ne_eq]
        exact hm
      have hrest : ∀ s ∈ ms, s ≠ "" := fun s hs => hmd s (List.mem_cons_of_mem m hs)
      cases plots with
      | nil =>
        have hr := ih ms [] hrest (by simp at hlen ⊢; omega)
        simp [pairContentLoop, htruthy, hr, pairSpec]
      | cons p ps =>
        have hr := ih ms ps hrest (by simp at hlen ⊢; omega)
        simp [pairContentLoop, htruthy, hr, pairSpec]

theorem pairLoop_stuck : ∀ (fuel : Nat) (ms : List String) (plots : List Plot),
    pairContentLoop fuel ("" :: ms) plots = none := by
  intro fuel
  induction fuel with
  | zero => intro ms plots; rfl
  | succ f ih => intro ms plots; simp [pairContentLoop, mdTruthy, ih]

theorem processCellContrib_strip (ct cell : JVal) (mds : List String) (pls : List Plot) :
    processCellContrib ct cell = .ok (mds, pls) → ∀ s ∈ mds, pyStrip s ≠ "" := by
  intro h s hs
  unfold processCellContrib at h
  by_cases hmd : jIsStr ct "markdown" = true
  · rw [if_pos hmd] at h
    cases hpm : process_markdown_cell cell with
    | error e => simp only [hpm] at h; exact absurd h (by simp)
    | ok t =>
      simp only [hpm] at h
      by_cases hstrip : pyStrip t = ""
      · rw [if_pos hstrip] at h
        simp at h
        rcases h with ⟨h1, _⟩
        subst h1
        cases hs
      · rw [if_neg hstrip] at h
        simp at h
        rcases h with ⟨h1, _⟩
        subst h1
        have hst : s = t := by simpa using hs
        subst hst
        exact hstrip
  · rw [if_neg hmd] at h
    by_cases hcode : jIsStr ct "code" = true
    · rw [if_pos hcode] at h
      cases hep : extract_plots_from_cell cell with
      | error e => simp only [hep] at h; exact absurd h (by simp)
      | ok ps =>
        simp only [hep] at h
        simp at h
        rcases h with ⟨h1, _⟩
        subst h1
        cases hs
    · rw [if_neg hcode] at h
      simp at h
      rcases h with ⟨h1, _⟩
      subst h1
      cases hs

theorem processCells_strip : ∀ (cells : List JVal) (mds : List String) (pls : List Plot),
    processCells cells = .ok (mds, pls) → ∀ s ∈ mds, pyStrip s ≠ "" := by
  intro cells
  induction cells with
  | nil =>
    intro mds pls h s hs
    simp [processCells] at h
    rcases h with ⟨h1, _⟩
    subst h1
    cases hs
  | cons cell rest ih =>
    intro mds pls h s hs
    unfold processCells at h
    cases hct : jGetItem cell "cell_type" with
    | error e => simp only [hct] at h; exact absurd h (by simp)
    | ok ct =>
      simp only [hct] at h
      cases hcontrib : processCellContrib ct cell with
      | error e => simp only [hcontrib] at h; exact absurd h (by simp)
      | ok pr1 =>
        obtain ⟨mds1, pls1⟩ := pr1
        simp only [hcontrib] at h
        cases hrest : processCells rest with
        | error e => simp only [hrest] at h; exact absurd h (by simp)
        | ok pr2 =>
          obtain ⟨mds2, pls2⟩ := pr2
          simp only [hrest] at h
          simp at h
          rcases h with ⟨h1, _⟩
          subst h1
          rcases List.mem_append.mp hs with hmem | hmem
          · exact processCellContrib_strip ct cell mds1 pls1 hcontrib s hmem
          · exact ih mds2 pls2 hrest s hmem

/-! ## Claim theorems -/

/-- A concrete plot for witnesses and examples. -/
def plotEx (n : Nat) : Plot := ⟨"image/png", JVal.jstr (toString n), JVal.jobj []⟩

/-- Claim C1: for every content record (whose markdown strings are
non-empty, as the extractor guarantees), the default template's pairing
walks the markdown and plot lists in parallel: each step pairs at most
one markdown string with zero-or-one plots, consuming one plot per step
while plots remain, and once the markdown list is exhausted each
remaining step still drains exactly one plot, until both lists are
exhausted (`pairSpec`); in particular markdown `["A","B"]` with three
plots pairs as `(A,[P1]), (B,[P2]), (None,[P3])`. -/
theorem pair_content_round_robin :
    (∀ (md : List String) (plots : List Plot), (∀ s ∈ md, s ≠ "") →
      pair_content md plots = some (pairSpec md plots))
    ∧ pair_content ["A", "B"] [plotEx 1, plotEx 2, plotEx 3] =
        some [(some "A", [plotEx 1]), (some "B", [plotEx 2]), (none, [plotEx 3])] := by
  constructor
  · intro md plots hmd
    exact pairLoop_spec (md.length + plots.length) md plots hmd (Nat.le_refl _)
  · rfl

/-- Witness for C1: the round-robin pairing evaluated on the concrete
lists of the claim. -/
theorem pair_content_round_robin_check :
    pair_content ["A", "B"] [plotEx 1, plotEx 2, plotEx 3] =
      some (pairSpec ["A", "B"] [plotEx 1, plotEx 2, plotEx 3]) :=
  pair_content_round_robin.1 ["A", "B"] [plotEx 1, plotEx 2, plotEx 3] (by decide)

/-- Claim C10: when every markdown string is non-empty (the invariant
the extractor guarantees), the pairing loop terminates and returns
exactly `max md.length plots.length` pairs; the termination really
depends on this precondition, because a step whose markdown entry is the
empty string does not advance the markdown index — with an empty string
at the head of the markdown list, no amount of fuel finishes the loop. -/
theorem pair_content_termination :
    (∀ (md : List String) (plots : List Plot), (∀ s ∈ md, s ≠ "") →
      ∃ pairs, pair_content md plots = some pairs ∧
        pairs.length = max md.length plots.length)
    ∧ (∀ (fuel : Nat) (ms : List String) (plots : List Plot),
        pairContentLoop fuel ("" :: ms) plots = none) := by
  constructor
  · intro md plots hmd
    refine ⟨pairSpec md plots, ?_, pairSpec_length md plots⟩
    exact pairLoop_spec (md.length + plots.length) md plots hmd (Nat.le_refl _)
  · exact pairLoop_stuck

/-- Witness for C10: the termination statement at a concrete input. -/
theorem pair_content_termination_check :
    ∃ pairs, pair_content ["A"] [plotEx 1] = some pairs ∧
      pairs.length = max (["A"] : List String).length ([plotEx 1] : List Plot).length :=
  pair_content_termination.1 ["A"] [plotEx 1] (by decide)

/-- Claim C2: `markdown_to_html` applies its rewrites in exactly this
order, each across the whole text before the next: line-anchored `### `
then `## ` then `# ` headers, then `**bold**`, then `*italic*`, then
triple-backtick fences (which may span newlines), then single-backtick
spans; finally every two consecutive newlines become a paragraph
boundary and the result is wrapped in one outer paragraph tag.  The
concrete evaluations pin down each stage's behavior and the ordering
(headers rewrite before emphasis, fences before inline code). -/
theorem markdown_to_html_stage_order :
    (∀ s, markdown_to_html s =
      "<p>" ++ pyReplace "\n\n" "</p><p>"
        (subDelim "`" "`" "<code>" "</code>" false
          (subDelim "```" "```" "<pre><code>" "</code></pre>" true
            (subDelim "*" "*" "<em>" "</em>" false
              (subDelim "**" "**" "<strong>" "</strong>" false
                (subHeader "# " "<h1>" "</h1>"
                  (subHeader "## " "<h2>" "</h2>"
                    (subHeader "### " "<h3>" "</h3>" s))))))) ++ "</p>")
    ∧ markdown_to_html "### Small" = "<p><h3>Small</h3></p>"
    ∧ markdown_to_html "## Mid" = "<p><h2>Mid</h2></p>"
    ∧ markdown_to_html "# **Big**" = "<p><h1><strong>Big</strong></h1></p>"
    ∧ markdown_to_html "**b** and *i*" = "<p><strong>b</strong> and <em>i</em></p>"
    ∧ markdown_to_html "```x\ny```" = "<p><pre><code>x\ny</code></pre></p>"
    ∧ markdown_to_html "before `c` after" = "<p>before <code>c</code> after</p>"
    ∧ markdown_to_html "a\n\nb" = "<p>a</p><p>b</p>" := by
  refine ⟨fun s => rfl, ?_, ?_, ?_, ?_, ?_, ?_, ?_⟩ <;> rfl

/-- Claim C5: every template name other than `"minimal"` and `"grid"`
(in particular any name outside `{default, minimal, grid}`, such as
`"fancy"`) renders through the default branch, producing output
identical to template name `"default"` on the same content record. -/
theorem create_html_template_fallback :
    ∀ (c : Content) (template now : String), template ≠ "minimal" → template ≠ "grid" →
      create_html_template c template now = create_html_template c "default" now := by
  intro c template now h1 h2
  unfold create_html_template
  rw [if_neg h1, if_neg h2,
    if_neg (by decide : ¬(("default" : String) = "minimal")),
    if_neg (by decide : ¬(("default" : String) = "grid"))]

/-- Witness for C5: the unknown template name `"fancy"` at a concrete
content record. -/
theorem create_html_template_fallback_check :
    create_html_template ⟨"T", [], ["hello"], JVal.jobj []⟩ "fancy" "2024-01-01 00:00:00" =
      create_html_template ⟨"T", [], ["hello"], JVal.jobj []⟩ "default" "2024-01-01 00:00:00" :=
  create_html_template_fallback ⟨"T", [], ["hello"], JVal.jobj []⟩ "fancy" "2024-01-01 00:00:00"
    (by decide) (by decide)

/-- Claim C8: on a content record with no markdown and no plots, each of
the three templates produces just its fixed page shell around the title:
the pairing is empty, and the output is exactly the head parts (which
carry the title) followed by the closing tags — no section divs, no
content/plot divs, no grid tiles. -/
theorem empty_content_templates :
    ∀ (t : String) (m : JVal) (now : String),
      pair_content [] [] = some []
      ∧ default_template ⟨t, [], [], m⟩ now =
          .ok (joinLines (defaultHead t now ++ ["    </div>", "</body>", "</html>"]))
      ∧ minimal_template ⟨t, [], [], m⟩ =
          .ok (joinLines (minimalHead t ++ ["</body>", "</html>"]))
      ∧ grid_template ⟨t, [], [], m⟩ =
          .ok (joinLines (gridHead t ++ ["    </div>", "</body>", "</html>"])) := by
  intro t m now
  exact ⟨rfl, rfl, rfl, rfl⟩

/-- A markdown cell whose source list holds one fragment. -/
def mdCell (s : String) : JVal :=
  JVal.jobj [("cell_type", JVal.jstr "markdown"), ("source", JVal.jarr [JVal.jstr s])]

/-- The smoke-test document: one markdown cell and one code cell whose
output carries an `image/png` payload `"AAAA"`. -/
def docC9 : JVal :=
  JVal.jobj [("cells", JVal.jarr
    [mdCell "# T\n\nHello **world**",
     JVal.jobj [("cell_type", JVal.jstr "code"),
       ("outputs", JVal.jarr [JVal.jobj
         [("output_type", JVal.jstr "display_data"),
          ("data", JVal.jobj [("image/png", JVal.jstr "AAAA")]),
          ("metadata", JVal.jobj [])]])]]),
   ("metadata", JVal.jobj [])]

/-- The line parts of the default-template rendering of `docC9`. -/
def partsC9 : List String :=
  defaultHead "T" "2024-01-01 00:00:00" ++
  ["        <div class='section' id='section-0'>",
   "            <div class='markdown-content'>",
   "                <p><h1>T</h1></p><p>Hello <strong>world</strong></p>",
   "            </div>",
   "            <div class='plots-container'>",
   "<img src=\"data:image/png;base64,AAAA\" alt=\"Plot\" class=\"plot-image\">",
   "            </div>",
   "        </div>",
   "    </div>", "</body>", "</html>"]

/-- Claim C9: `plot_to_html` joins a list-of-fragments payload with no
separator; `image/svg+xml` payloads are embedded verbatim inside a
wrapping div, `image/png`/`image/jpeg` payloads become a base64 data URI
inside an `img` element.  The smoke-test document `docC9` parses to the
expected content record and renders (default template) to HTML whose
lines are `partsC9`, containing `<h1 class='main-title'>T</h1>`, the
paragraph `<p>Hello <strong>world</strong></p>`, and the fragment
`<img src="data:image/png;base64,AAAA"`. -/
theorem plot_to_html_embedding :
    (∀ (a b : String) (m : JVal),
      plot_to_html ⟨"image/svg+xml", JVal.jarr [JVal.jstr a, JVal.jstr b], m⟩ =
        .ok ("<div class=\"plot-svg\">" ++ a ++ b ++ "</div>"))
    ∧ (∀ (s : String) (m : JVal),
      plot_to_html ⟨"image/svg+xml", JVal.jstr s, m⟩ =
        .ok ("<div class=\"plot-svg\">" ++ s ++ "</div>"))
    ∧ (∀ (s : String) (m : JVal),
      plot_to_html ⟨"image/png", JVal.jstr s, m⟩ =
        .ok ("<img src=\"data:image/png;base64," ++ s ++ "\" alt=\"Plot\" class=\"plot-image\">"))
    ∧ (∀ (s : String) (m : JVal),
      plot_to_html ⟨"image/jpeg", JVal.jstr s, m⟩ =
        .ok ("<img src=\"data:image/jpeg;base64," ++ s ++ "\" alt=\"Plot\" class=\"plot-image\">"))
    ∧ parse_notebook docC9 =
        .ok ⟨"T", [⟨"image/png", JVal.jstr "AAAA", JVal.jobj []⟩],
          ["# T\n\nHello **world**"], JVal.jobj []⟩
    ∧ create_html_template
        ⟨"T", [⟨"image/png", JVal.jstr "AAAA", JVal.jobj []⟩],
          ["# T\n\nHello **world**"], JVal.jobj []⟩ "default" "2024-01-01 00:00:00" =
        .ok (joinLines partsC9)
    ∧ strContainsSub (joinLines partsC9) "<h1 class='main-title'>T</h1>" = true
    ∧ strContainsSub (joinLines partsC9) "<p>Hello <strong>world</strong></p>" = true
    ∧ strContainsSub (joinLines partsC9) "<img src=\"data:image/png;base64,AAAA\"" = true := by
  refine ⟨?_, fun s m => rfl, fun s m => rfl, fun s m => rfl, rfl, rfl, ?_, ?_, ?_⟩
  · intro a b m
    show Except.ok ("<div class=\"plot-svg\">" ++ (a ++ (b ++ "")) ++ "</div>") = _
    rw [strAppendEmpty]
    simp only [strAppendAssoc]
  · exact strContainsSub_joinLines partsC9 "        <h1 class='main-title'>T</h1>" _
      (by decide) (by rfl)
  · exact strContainsSub_joinLines partsC9
      "                <p><h1>T</h1></p><p>Hello <strong>world</strong></p>" _
      (by decide) (by rfl)
  · exact strContainsSub_joinLines partsC9
      "<img src=\"data:image/png;base64,AAAA\" alt=\"Plot\" class=\"plot-image\">" _
      (by decide) (by rfl)

/-- An output of kind `error` (with arbitrary data/metadata). -/
def errOut (d m : JVal) : JVal :=
  JVal.jobj [("output_type", JVal.jstr "error"), ("data", d), ("metadata", m)]

/-- A code cell with its own cell-level metadata `cm` and one
`display_data` output whose data mapping lists `image/svg+xml` before
`image/png`, with output metadata `m`. -/
def c3Cell (p q m cm : JVal) : JVal :=
  JVal.jobj [("cell_type", JVal.jstr "code"), ("metadata", cm),
    ("outputs", JVal.jarr [JVal.jobj
      [("output_type", JVal.jstr "display_data"),
       ("data", JVal.jobj [("image/svg+xml", q), ("image/png", p)]),
       ("metadata", m)]])]

/-- Claim C3: plot extraction emits plots only from outputs of kind
`display_data` or `execute_result` (an `error` output contributes
nothing, whatever its data); the data mapping is scanned in the fixed
order png, jpeg, svg — so an output exposing both `image/png` and
`image/svg+xml` (even listed svg-first) yields the png plot before the
svg plot — and each plot carries the output's own metadata `m`, not the
cell's metadata `cm`. -/
theorem extract_plots_kind_and_order :
    (∀ (d m : JVal) (outs : List JVal),
      processOutputs (errOut d m :: outs) = processOutputs outs)
    ∧ (∀ (p q m cm : JVal),
      extract_plots_from_cell (c3Cell p q m cm) =
        .ok [⟨"image/png", p, m⟩, ⟨"image/svg+xml", q, m⟩])
    ∧ (∀ (k d m : JVal), jIsStr k "display_data" = false → jIsStr k "execute_result" = false →
      processOutputs [JVal.jobj [("output_type", k), ("data", d), ("metadata", m)]] =
        .ok []) := by
  refine ⟨?_, fun p q m cm => rfl, ?_⟩
  · intro d m outs
    cases h : processOutputs outs <;>
      simp [processOutputs, errOut, jGetD, lookupField, jIsStr, h]
  · intro k d m h1 h2
    simp [processOutputs, jGetD, lookupField, h1, h2]

/-- Witness for C3: an `error` output alone yields no plots. -/
theorem extract_plots_kind_and_order_check :
    processOutputs [JVal.jobj [("output_type", JVal.jstr "error"), ("data", JVal.jnull),
      ("metadata", JVal.jnull)]] = .ok [] :=
  extract_plots_kind_and_order.2.2 (JVal.jstr "error") JVal.jnull JVal.jnull rfl rfl

/-- A document whose single (hence first) markdown cell contains
`# My Title` on its own line, but preceded by another H1 line. -/
def docC4cx : JVal :=
  JVal.jobj [("cells", JVal.jarr [mdCell "# A\n# My Title"]), ("metadata", JVal.jobj [])]

/-- Counterexample to claim C4 as stated: `docC4cx`'s first markdown
cell contains `# My Title` on its own line, yet the extracted title is
`"A"` (the regex's first match), not `"My Title"` — so the title is not
`"My Title"` "regardless of surrounding text". -/
theorem extract_title_surrounding_text_cx :
    extract_title docC4cx = .ok "A" ∧ "A" ≠ "My Title" :=
  ⟨rfl, by decide⟩

/-- A document with markdown but no H1 match anywhere. -/
def docC4none : JVal :=
  JVal.jobj [("cells", JVal.jarr [mdCell "Just *text*\nno heading here"]),
    ("metadata", JVal.jobj [])]

/-- A document whose first markdown cell contains `# My Title` on its
own line as the regex's first match, with surrounding non-matching text
and a later H1 cell. -/
def docC4pos : JVal :=
  JVal.jobj [("cells", JVal.jarr
    [mdCell "Intro line without hash\n# My Title\ntrailing text # not a heading",
     mdCell "# Other"]), ("metadata", JVal.jobj [])]

/-- A document whose H1 line carries surrounding whitespace. -/
def docC4trim : JVal :=
  JVal.jobj [("cells", JVal.jarr [mdCell "#    My Title   \nbody"]),
    ("metadata", JVal.jobj [])]

/-- Claim C4 (amended): the scan returns, for the first markdown cell
matching `^#\s+(.+)$` (first match only, multiline), the captured group
trimmed; with no match anywhere the title is `"Dashboard"`; and a
document whose first markdown cell contains `# My Title` on its own line
yields `"My Title"` provided that line is the regex's first match in
that cell (the trimming example shows the group is stripped of
whitespace). -/
theorem extract_title_first_match_amended :
    (∀ fs : List (String × JVal), lookupField fs "cells" = none →
      extract_title (JVal.jobj fs) = .ok "Dashboard")
    ∧ extract_title docC4none = .ok "Dashboard"
    ∧ extract_title docC4pos = .ok "My Title"
    ∧ extract_title docC4trim = .ok "My Title" := by
  refine ⟨?_, rfl, rfl, rfl⟩
  intro fs h
  unfold extract_title
  simp [jGetD, h, jIter, titleScan]

/-- Witness for C4 (amended): a document with no `cells` field defaults
to title `"Dashboard"`. -/
theorem extract_title_first_match_amended_check :
    extract_title (JVal.jobj [("metadata", JVal.jobj [])]) = .ok "Dashboard" :=
  extract_title_first_match_amended.1 [("metadata", JVal.jobj [])] rfl

/-- Claim C6: parsing fails exactly on a missing, unreadable or
undecodable file and on documents that do not have the expected shape (a
top-level non-object, a cell without `cell_type`); a document whose
top-level `cells` field is missing is not an error and yields the empty
content record (title `"Dashboard"`, no markdown, no plots). -/
theorem parse_notebook_error_conditions :
    parse_notebook_file ReadResult.missingFile = .error ()
    ∧ parse_notebook_file ReadResult.unreadable = .error ()
    ∧ parse_notebook_file ReadResult.badJson = .error ()
    ∧ (∀ fs : List (String × JVal), lookupField fs "cells" = none →
        parse_notebook_file (ReadResult.success (JVal.jobj fs)) =
          .ok ⟨"Dashboard", [], [], (lookupField fs "metadata").getD (JVal.jobj [])⟩)
    ∧ (∀ items : List JVal, parse_notebook (JVal.jarr items) = .error ())
    ∧ parse_notebook (JVal.jobj [("cells", JVal.jarr [JVal.jobj []])]) = .error () := by
  refine ⟨rfl, rfl, rfl, ?_, fun items => rfl, rfl⟩
  intro fs h
  show parse_notebook (JVal.jobj fs) = _
  unfold parse_notebook extract_title
  simp [jGetD, h, jIter, titleScan, processCells]

/-- Witness for C6: a concrete document with metadata but no `cells`. -/
theorem parse_notebook_error_conditions_check :
    parse_notebook_file (ReadResult.success
        (JVal.jobj [("metadata", JVal.jobj [("language", JVal.jstr "python")])])) =
      .ok ⟨"Dashboard", [], [],
        (lookupField [("metadata", JVal.jobj [("language", JVal.jstr "python")])]
          "metadata").getD (JVal.jobj [])⟩ :=
  parse_notebook_error_conditions.2.2.2.1
    [("metadata", JVal.jobj [("language", JVal.jstr "python")])] rfl

/-- Claim C7: every markdown string in a successfully extracted content
record is non-empty after stripping whitespace (blank markdown cells are
filtered out by `parse_notebook`). -/
theorem parse_notebook_markdown_nonblank :
    ∀ (v : JVal) (c : Content), parse_notebook v = .ok c → ∀ s ∈ c.markdown, pyStrip s ≠ "" := by
  intro v c h s hs
  unfold parse_notebook at h
  cases h1 : extract_title v with
  | error e => simp only [h1] at h; exact absurd h (by simp)
  | ok title =>
    simp only [h1] at h
    cases h2 : jGetD v "metadata" (JVal.jobj []) with
    | error e => simp only [h2] at h; exact absurd h (by simp)
    | ok metaV =>
      simp only [h2] at h
      cases h3 : jGetD v "cells" (JVal.jarr []) with
      | error e => simp only [h3] at h; exact absurd h (by simp)
      | ok cellsV =>
        simp only [h3] at h
        cases h4 : jIter cellsV with
        | error e => simp only [h4] at h; exact absurd h (by simp)
        | ok cells =>
          simp only [h4] at h
          cases h5 : processCells cells with
          | error e => simp only [h5] at h; exact absurd h (by simp)
          | ok pr =>
            obtain ⟨mds, pls⟩ := pr
            simp only [h5] at h
            have hc : c = ⟨title, pls, mds, metaV⟩ := by
              cases h
              rfl
            subst hc
            exact processCells_strip cells mds pls h5 s hs

/-- The concrete document for the C7 witness. -/
def docC7 : JVal :=
  JVal.jobj [("cells", JVal.jarr [mdCell "# T"]), ("metadata", JVal.jobj [])]

/-- Witness for C7: the invariant applied to the one markdown string
extracted from `docC7`. -/
theorem parse_notebook_markdown_nonblank_check : pyStrip "# T" ≠ "" :=
  parse_notebook_markdown_nonblank docC7 ⟨"T", [], ["# T"], JVal.jobj []⟩ rfl "# T" (by simp)
